import Mathlib

/-!
Verification of the dog-api query/filter/pagination/aggregation engine.

Shallow embedding of the route handlers of the `dog-api` repository
(`src/routes/dogs.ts`, `breeds.ts`, `health.ts`, `training.ts`,
`adoption.ts` and the shared `schemas.ts` / `mockData.ts` helpers).

Modelling conventions:
* JS strings stay `String`; JS numbers that the schemas constrain to
  integers become `Nat`; unconstrained JS numbers (weights, costs)
  become `ℚ`.
* Date and datetime fields are ISO-8601 strings in the source
  (`"YYYY-MM-DD"`, `"…T…Z"`).  Lexicographic comparison of two such
  strings agrees with chronological comparison of their
  `new Date(s).getTime()` values, so we model every date field by its
  chronological ordinal, a `Nat`, and the string comparisons of the source
  (`record.date >= query.dateFrom`) and timestamp comparisons
  (`new Date(b.date).getTime() - new Date(a.date).getTime()`) both
  become comparisons of those ordinals.
* Optional fields become `Option`; an early 404 `return` of a route
  becomes `Except.error`.
-/

namespace DogApi

/-! ## Enumerations from `schemas.ts` -/

inductive Gender
  | male
  | female
deriving DecidableEq, Repr

inductive DogSize
  | small
  | medium
  | large
  | extraLarge
deriving DecidableEq, Repr

inductive HealthRecordType
  | vaccination
  | checkup
  | treatment
  | surgery
  | emergency
  | dental
  | grooming
deriving DecidableEq, Repr

inductive TrainingType
  | basicObedience
  | advancedObedience
  | agility
  | therapy
  | service
  | behavioral
  | socialization
deriving DecidableEq, Repr

inductive TrainingStatus
  | inProgress
  | completed
  | discontinued
deriving DecidableEq, Repr

inductive Progress
  | poor
  | fair
  | good
  | excellent
deriving DecidableEq, Repr

inductive AppStatus
  | pending
  | approved
  | rejected
  | withdrawn
deriving DecidableEq, Repr

inductive HousingType
  | apartment
  | house
  | condo
  | farm
  | other
deriving DecidableEq, Repr

inductive ExperienceLevel
  | none
  | some
  | experienced
  | veryExperienced
deriving DecidableEq, Repr

/-! ## Record types from `schemas.ts` -/

/-- Record type of `DogSchema`. -/
structure Dog where
  id : String
  name : String
  breed : String
  age : Nat
  weight : ℚ
  gender : Gender
  color : String
  size : DogSize
  temperament : List String
  isNeutered : Bool
  microchipId : Option String
  photos : List String
  description : String
  createdAt : Nat
  updatedAt : Nat
deriving DecidableEq, Repr

/-- An entry of the `medications` array of `HealthRecordSchema`. -/
structure Medication where
  name : String
  dosage : String
  frequency : String
deriving DecidableEq, Repr

/-- Record type of `HealthRecordSchema`. -/
structure HealthRecord where
  id : String
  dogId : String
  type : HealthRecordType
  date : Nat
  veterinarian : String
  clinic : String
  description : String
  medications : Option (List Medication)
  cost : Option ℚ
  followUpDate : Option Nat
  notes : Option String
  attachments : Option (List String)
  createdAt : Nat
  updatedAt : Nat
deriving DecidableEq, Repr

/-- Record type of `TrainingRecordSchema`. -/
structure TrainingRecord where
  id : String
  dogId : String
  type : TrainingType
  trainer : String
  facility : Option String
  startDate : Nat
  endDate : Option Nat
  status : TrainingStatus
  skills : List String
  progress : Progress
  cost : Option ℚ
  notes : Option String
  certificates : Option (List String)
  createdAt : Nat
  updatedAt : Nat
deriving DecidableEq, Repr

/-- The `address` object of `AdoptionApplicationSchema`. -/
structure Address where
  street : String
  city : String
  state : String
  zipCode : String
deriving DecidableEq, Repr

/-- Record type of `AdoptionApplicationSchema`. -/
structure AdoptionApplication where
  id : String
  dogId : String
  applicantName : String
  applicantEmail : String
  applicantPhone : String
  address : Address
  housingType : HousingType
  hasYard : Bool
  hasOtherPets : Bool
  otherPetsDetails : Option String
  experience : ExperienceLevel
  workSchedule : String
  reason : String
  status : AppStatus
  notes : Option String
  createdAt : Nat
  updatedAt : Nat
deriving DecidableEq, Repr

/-- Record type of `ErrorSchema` (`{ error, message }`). -/
structure ErrorResp where
  error : String
  message : String
deriving DecidableEq, Repr

/-! ## Shared helpers from `mockData.ts` -/

/-- Types with an `id : string` field, matching the TS generic bound
`T extends { id: string }` of `findById`. -/
class HasId (α : Type) where
  idOf : α → String

instance : HasId Dog := ⟨Dog.id⟩
instance : HasId HealthRecord := ⟨HealthRecord.id⟩
instance : HasId TrainingRecord := ⟨TrainingRecord.id⟩
instance : HasId AdoptionApplication := ⟨AdoptionApplication.id⟩

@[simp] theorem idOf_dog (d : Dog) : HasId.idOf d = d.id := rfl

@[simp] theorem idOf_healthRecord (r : HealthRecord) : HasId.idOf r = r.id := rfl

@[simp] theorem idOf_trainingRecord (r : TrainingRecord) : HasId.idOf r = r.id := rfl

@[simp] theorem idOf_adoptionApplication (a : AdoptionApplication) :
    HasId.idOf a = a.id := rfl

/-- Helper `findById` from `mockData.ts`: `data.find((item) => item.id === id)`. -/
def findById {α : Type} [HasId α] (data : List α) (id : String) : Option α :=
  data.find? fun item => HasId.idOf item == id

/-! ## Pagination (inlined identically in every list route) -/

/-- The `{page, limit, total, totalPages}` pagination descriptor. -/
structure Pagination where
  page : Nat
  limit : Nat
  total : Nat
  totalPages : Nat
deriving DecidableEq, Repr

/-- JS `Array.prototype.slice(start, stop)` for the non-negative indices the
routes produce: the elements at positions `[start, stop)`. -/
def jsSlice {α : Type} (l : List α) (start stop : Nat) : List α :=
  (l.drop start).take (stop - start)

/-- The pagination block that every list route inlines verbatim:
`startIndex = (page - 1) * limit`, `endIndex = startIndex + limit`,
`filtered.slice(startIndex, endIndex)`, and a descriptor with
`total = filtered.length`, `totalPages = Math.ceil(filtered.length / limit)`. -/
def paginate {α : Type} (records : List α) (page limit : Nat) : List α × Pagination :=
  let startIndex := (page - 1) * limit
  let endIndex := startIndex + limit
  (jsSlice records startIndex endIndex,
   { page := page
     limit := limit
     total := records.length
     totalPages := ⌈(records.length : ℚ) / (limit : ℚ)⌉₊ })

/-! ## GET /dogs — `listDogsRoute` handler (`dogs.ts`) -/

/-- Query type of `DogQuerySchema`.  The `page` field defaults to 1 and `limit` to 10; zod
constrains `page ≥ 1` and `1 ≤ limit ≤ 100` before the handler runs. -/
structure DogQuery where
  breed : Option String
  age_min : Option Nat
  age_max : Option Nat
  weight_min : Option ℚ
  weight_max : Option ℚ
  gender : Option Gender
  size : Option DogSize
  isNeutered : Option Bool
  page : Nat
  limit : Nat
deriving DecidableEq, Repr

/-- JS `hay.toLowerCase().includes(needle.toLowerCase())`. -/
def includesCI (hay needle : String) : Bool :=
  decide (List.IsInfix needle.toLower.data hay.toLower.data)

/-- One `if (query.x !== undefined) { f = f.filter(...) }` step of a
filter chain of a route: filter when the criterion is supplied, otherwise
leave the running list unchanged. -/
def optFilter {α β : Type} (l : List α) (o : Option β) (p : β → α → Bool) : List α :=
  match o with
  | Option.some v => l.filter (p v)
  | Option.none => l

/-- The filter chain of the `listDogsRoute` handler: one `if` per
supplied criterion, each re-filtering the running list with the
predicate written in that `if` block.  (The handler guards `breed` with
JS truthiness, under which an empty string skips the filter; an empty
needle also matches every string, so the two readings coincide and we
model the guard as presence of the optional.) -/
def filterDogs (dogs : List Dog) (q : DogQuery) : List Dog :=
  let f := dogs
  let f := optFilter f q.breed fun b dog => includesCI dog.breed b
  let f := optFilter f q.age_min fun n dog => decide (n ≤ dog.age)
  let f := optFilter f q.age_max fun n dog => decide (dog.age ≤ n)
  let f := optFilter f q.weight_min fun w dog => decide (w ≤ dog.weight)
  let f := optFilter f q.weight_max fun w dog => decide (dog.weight ≤ w)
  let f := optFilter f q.gender fun g dog => decide (dog.gender = g)
  let f := optFilter f q.size fun s dog => decide (dog.size = s)
  let f := optFilter f q.isNeutered fun b dog => dog.isNeutered == b
  f

/-- The `listDogsRoute` handler: filter chain, then the inline
pagination block. -/
def listDogs (dogs : List Dog) (q : DogQuery) : List Dog × Pagination :=
  paginate (filterDogs dogs q) q.page q.limit

/-! ## GET /health/records — `listHealthRecordsRoute` handler (`health.ts`) -/

/-- The query schema of `listHealthRecordsRoute`. -/
structure HealthQuery where
  dogId : Option String
  type : Option HealthRecordType
  veterinarian : Option String
  dateFrom : Option Nat
  dateTo : Option Nat
  page : Nat
  limit : Nat
deriving DecidableEq, Repr

/-- The filter chain of the `listHealthRecordsRoute` handler. -/
def filterHealthRecords (records : List HealthRecord) (q : HealthQuery) :
    List HealthRecord :=
  let f := records
  let f := optFilter f q.dogId fun d record => record.dogId == d
  let f := optFilter f q.type fun t record => decide (record.type = t)
  let f := optFilter f q.veterinarian fun v record => includesCI record.veterinarian v
  let f := optFilter f q.dateFrom fun d record => decide (d ≤ record.date)
  let f := optFilter f q.dateTo fun d record => decide (record.date ≤ d)
  f

/-- The `listHealthRecordsRoute` handler: filter chain, then the inline
pagination block. -/
def listHealthRecords (records : List HealthRecord) (q : HealthQuery) :
    List HealthRecord × Pagination :=
  paginate (filterHealthRecords records q) q.page q.limit

/-! ## Arithmetic helper for the pagination law -/

/-- Ceiling division: `Math.ceil(n / l)` on naturals equals `(n + l - 1) / l`. -/
theorem nat_ceil_div_eq (n l : Nat) (hl : 0 < l) :
    ⌈(n : ℚ) / (l : ℚ)⌉₊ = (n + l - 1) / l := by
  have hl' : (0 : ℚ) < (l : ℚ) := by exact_mod_cast hl
  apply eq_of_forall_ge_iff
  intro m
  rw [Nat.ceil_le, div_le_iff₀ hl', Nat.div_le_iff_le_mul_add_pred hl, Nat.mul_comm l m]
  constructor
  · intro h
    have h1 : n ≤ m * l := by exact_mod_cast h
    omega
  · intro h
    have h1 : n ≤ m * l := by omega
    exact_mod_cast h1

/-- A `DogQuery` supplying no filter criteria (all optional matchers
absent, default `page = 1`, `limit = 10`). -/
def emptyDogQuery : DogQuery :=
  { breed := Option.none, age_min := Option.none, age_max := Option.none
    weight_min := Option.none, weight_max := Option.none
    gender := Option.none, size := Option.none, isNeutered := Option.none
    page := 1, limit := 10 }

/-- A `HealthQuery` supplying no filter criteria. -/
def emptyHealthQuery : HealthQuery :=
  { dogId := Option.none, type := Option.none, veterinarian := Option.none
    dateFrom := Option.none, dateTo := Option.none, page := 1, limit := 10 }

/-! ## Individual filter criteria (the matcher kinds of the two cited
filter chains, one constructor per `if` branch) -/

/-- One supplied criterion of the `listDogsRoute` filter chain; the
predicate of each constructor is the body of the corresponding
`filteredDogs.filter(...)` call. -/
inductive DogCriterion
  | breed (b : String)
  | ageMin (n : Nat)
  | ageMax (n : Nat)
  | weightMin (w : ℚ)
  | weightMax (w : ℚ)
  | gender (g : Gender)
  | size (s : DogSize)
  | isNeutered (b : Bool)
deriving DecidableEq, Repr

/-- The predicate the `listDogsRoute` handler applies for one supplied
criterion. -/
def dogMatches : DogCriterion → Dog → Bool
  | DogCriterion.breed b, dog => includesCI dog.breed b
  | DogCriterion.ageMin n, dog => decide (n ≤ dog.age)
  | DogCriterion.ageMax n, dog => decide (dog.age ≤ n)
  | DogCriterion.weightMin w, dog => decide (w ≤ dog.weight)
  | DogCriterion.weightMax w, dog => decide (dog.weight ≤ w)
  | DogCriterion.gender g, dog => decide (dog.gender = g)
  | DogCriterion.size s, dog => decide (dog.size = s)
  | DogCriterion.isNeutered b, dog => dog.isNeutered == b

/-- One `if (query.x) { filteredDogs = filteredDogs.filter(...) }` step. -/
def applyDogCriterion (c : DogCriterion) (l : List Dog) : List Dog :=
  l.filter (dogMatches c)

/-- One supplied criterion of the `listHealthRecordsRoute` filter chain. -/
inductive HealthCriterion
  | dogId (d : String)
  | type (t : HealthRecordType)
  | veterinarian (v : String)
  | dateFrom (d : Nat)
  | dateTo (d : Nat)
deriving DecidableEq, Repr

/-- The predicate the `listHealthRecordsRoute` handler applies for one
supplied criterion. -/
def healthMatches : HealthCriterion → HealthRecord → Bool
  | HealthCriterion.dogId d, record => record.dogId == d
  | HealthCriterion.type t, record => decide (record.type = t)
  | HealthCriterion.veterinarian v, record => includesCI record.veterinarian v
  | HealthCriterion.dateFrom d, record => decide (d ≤ record.date)
  | HealthCriterion.dateTo d, record => decide (record.date ≤ d)

/-- One filter step of the `listHealthRecordsRoute` handler. -/
def applyHealthCriterion (c : HealthCriterion) (l : List HealthRecord) :
    List HealthRecord :=
  l.filter (healthMatches c)

/-- The conjunction of all criteria a `DogQuery` supplies; an absent
criterion contributes `true` (no constraint). -/
def dogQueryPred (q : DogQuery) (dog : Dog) : Bool :=
  q.breed.elim true (fun b => includesCI dog.breed b)
  && q.age_min.elim true (fun n => decide (n ≤ dog.age))
  && q.age_max.elim true (fun n => decide (dog.age ≤ n))
  && q.weight_min.elim true (fun w => decide (w ≤ dog.weight))
  && q.weight_max.elim true (fun w => decide (dog.weight ≤ w))
  && q.gender.elim true (fun g => decide (dog.gender = g))
  && q.size.elim true (fun s => decide (dog.size = s))
  && q.isNeutered.elim true (fun b => dog.isNeutered == b)

/-- The conjunction of all criteria a `HealthQuery` supplies. -/
def healthQueryPred (q : HealthQuery) (record : HealthRecord) : Bool :=
  q.dogId.elim true (fun d => record.dogId == d)
  && q.type.elim true (fun t => decide (record.type = t))
  && q.veterinarian.elim true (fun v => includesCI record.veterinarian v)
  && q.dateFrom.elim true (fun d => decide (d ≤ record.date))
  && q.dateTo.elim true (fun d => decide (record.date ≤ d))

/-- Each `optFilter` step is a single filter by the predicate of the criterion, with
`true` (no constraint) when the criterion is absent. -/
theorem optFilter_eq {α β : Type} (l : List α) (o : Option β) (p : β → α → Bool) :
    optFilter l o p = l.filter fun a => o.elim true fun v => p v a := by
  cases o <;> simp [optFilter]

/-- Reassociation of the eight-fold conjunction produced by collapsing
the dog filter chain. -/
theorem and_reassoc8 (a b c d e f g h : Bool) :
    (h && (g && (f && (e && (d && (c && (b && a))))))) =
      (a && b && c && d && e && f && g && h) := by
  revert a b c d e f g h
  decide

/-- Reassociation of the five-fold conjunction produced by collapsing
the health-record filter chain. -/
theorem and_reassoc5 (a b c d e : Bool) :
    (e && (d && (c && (b && a)))) = (a && b && c && d && e) := by
  revert a b c d e
  decide

/-- The `listDogsRoute` filter chain equals a single stable filter by
the conjunction of the supplied criteria. -/
theorem filterDogs_eq_filter (dogs : List Dog) (q : DogQuery) :
    filterDogs dogs q = dogs.filter (dogQueryPred q) := by
  simp only [filterDogs, optFilter_eq, List.filter_filter]
  exact List.filter_congr fun d _ => by
    simp only [dogQueryPred]
    exact and_reassoc8 _ _ _ _ _ _ _ _

/-- The `listHealthRecordsRoute` filter chain equals a single stable
filter by the conjunction of the supplied criteria. -/
theorem filterHealthRecords_eq_filter (records : List HealthRecord) (q : HealthQuery) :
    filterHealthRecords records q = records.filter (healthQueryPred q) := by
  simp only [filterHealthRecords, optFilter_eq, List.filter_filter]
  exact List.filter_congr fun r _ => by
    simp only [healthQueryPred]
    exact and_reassoc5 _ _ _ _ _

/-- C3 (Filter composability and commutativity): applying two supplied
criteria in sequence equals one filter by their conjunction, in either
matcher vocabulary of either route; the order of application is irrelevant; the
full chain of each cited handler equals one filter by the conjunction of
all supplied criteria; and a query supplying no criteria imposes no
constraint. -/
theorem filter_composability :
    (∀ (l : List Dog) (A B : DogCriterion),
      applyDogCriterion B (applyDogCriterion A l)
          = l.filter (fun d => dogMatches A d && dogMatches B d)
        ∧ applyDogCriterion B (applyDogCriterion A l)
          = applyDogCriterion A (applyDogCriterion B l))
    ∧ (∀ (l : List HealthRecord) (A B : HealthCriterion),
      applyHealthCriterion B (applyHealthCriterion A l)
          = l.filter (fun r => healthMatches A r && healthMatches B r)
        ∧ applyHealthCriterion B (applyHealthCriterion A l)
          = applyHealthCriterion A (applyHealthCriterion B l))
    ∧ (∀ (dogs : List Dog) (q : DogQuery),
        filterDogs dogs q = dogs.filter (dogQueryPred q))
    ∧ (∀ (records : List HealthRecord) (q : HealthQuery),
        filterHealthRecords records q = records.filter (healthQueryPred q))
    ∧ (∀ dogs : List Dog, filterDogs dogs emptyDogQuery = dogs)
    ∧ (∀ records : List HealthRecord,
        filterHealthRecords records emptyHealthQuery = records) := by
  refine ⟨?_, ?_, filterDogs_eq_filter, filterHealthRecords_eq_filter, ?_, ?_⟩
  · intro l A B
    constructor
    · rw [applyDogCriterion, applyDogCriterion, List.filter_filter]
      exact List.filter_congr fun d _ => Bool.and_comm _ _
    · rw [applyDogCriterion, applyDogCriterion, applyDogCriterion,
        applyDogCriterion, List.filter_filter, List.filter_filter]
      exact List.filter_congr fun d _ => Bool.and_comm _ _
  · intro l A B
    constructor
    · rw [applyHealthCriterion, applyHealthCriterion, List.filter_filter]
      exact List.filter_congr fun r _ => Bool.and_comm _ _
    · rw [applyHealthCriterion, applyHealthCriterion, applyHealthCriterion,
        applyHealthCriterion, List.filter_filter, List.filter_filter]
      exact List.filter_congr fun r _ => Bool.and_comm _ _
  · intro dogs
    simp [filterDogs, emptyDogQuery, optFilter]
  · intro records
    simp [filterHealthRecords, emptyHealthQuery, optFilter]

/-- C4 (Filter stability and idempotence): the filtered output of each
cited chain is a sublist of the input (so matching records keep their
relative order), and re-filtering a filtered output with the same
criteria returns it unchanged. -/
theorem filter_stability :
    (∀ (dogs : List Dog) (q : DogQuery),
        (filterDogs dogs q).Sublist dogs
      ∧ filterDogs (filterDogs dogs q) q = filterDogs dogs q)
    ∧ (∀ (records : List HealthRecord) (q : HealthQuery),
        (filterHealthRecords records q).Sublist records
      ∧ filterHealthRecords (filterHealthRecords records q) q
          = filterHealthRecords records q) := by
  constructor
  · intro dogs q
    rw [filterDogs_eq_filter, filterDogs_eq_filter]
    exact ⟨List.filter_sublist dogs, by simp [List.filter_filter]⟩
  · intro records q
    rw [filterHealthRecords_eq_filter, filterHealthRecords_eq_filter]
    exact ⟨List.filter_sublist records, by simp [List.filter_filter]⟩

/-- C1 (Pagination window law): for every sequence of length `N`, a page
`≥ 1` and a limit in `[1,100]`, the list endpoints return exactly the
slice `records[(page-1)*limit : (page-1)*limit + limit]` clipped to the
available length, of length `clamp(limit, 0, max(0, N - (page-1)*limit))`
(`min limit (N - start)` with truncated subtraction); an out-of-range
page yields an empty window; the descriptor carries `total = N` and
`totalPages = ⌈N / limit⌉ = (N + limit - 1) / limit`, which is `0` when
`N = 0`; and both cited list handlers are the filter chain followed by
exactly this pagination block. -/
theorem pagination_window_law (α : Type) (records : List α) (page limit : Nat)
    (hpage : 1 ≤ page) (hlim : 1 ≤ limit) (hlim' : limit ≤ 100)
    (dogs : List Dog) (dq : DogQuery) (hrs : List HealthRecord) (hq : HealthQuery) :
    (paginate records page limit).1
        = ((records.drop ((page - 1) * limit)).take limit)
    ∧ (paginate records page limit).1.length
        = min limit (records.length - (page - 1) * limit)
    ∧ (paginate records page limit).2.total = records.length
    ∧ (paginate records page limit).2.totalPages = (records.length + limit - 1) / limit
    ∧ (records.length = 0 → (paginate records page limit).2.totalPages = 0)
    ∧ (records.length ≤ (page - 1) * limit → (paginate records page limit).1 = [])
    ∧ listDogs dogs dq = paginate (filterDogs dogs dq) dq.page dq.limit
    ∧ listHealthRecords hrs hq = paginate (filterHealthRecords hrs hq) hq.page hq.limit := by
  have hwin : (paginate records page limit).1
      = ((records.drop ((page - 1) * limit)).take limit) := by
    simp [paginate, jsSlice]
  refine ⟨hwin, ?_, rfl, ?_, ?_, ?_, rfl, rfl⟩
  · rw [hwin]
    rw [List.length_take, List.length_drop]
  · exact nat_ceil_div_eq records.length limit hlim
  · intro h
    simp [paginate, h]
  · intro h
    rw [hwin]
    rw [List.drop_eq_nil_of_le h]
    simp

/-- Concrete instance of C1 at the scenario of the spec: 12 filtered records,
`limit = 5`, `page = 3` give a window of length 2 and `totalPages = 3`. -/
theorem pagination_window_law_witness :
    (paginate (List.range 12) 3 5).1.length = 2
    ∧ (paginate (List.range 12) 3 5).2.totalPages = 3
    ∧ (paginate (List.range 12) 3 5).2.total = 12 := by
  have h := pagination_window_law Nat (List.range 12) 3 5 (by decide) (by decide)
    (by decide) [] emptyDogQuery [] emptyHealthQuery
  refine ⟨h.2.1.trans (by decide), h.2.2.2.1.trans (by decide), h.2.2.1.trans (by decide)⟩

/-! ## Training aggregations (`training.ts`) -/

/-- The progress-to-score mapping used by both training aggregation
routes: the `switch (record.progress)` of `getDogTrainingProgressRoute`
(whose `default: return 2` arm is unreachable for the 4-value enum) and
the object-literal lookup of `getTrainersRoute`. -/
def progressScore : Progress → Nat
  | Progress.poor => 1
  | Progress.fair => 2
  | Progress.good => 3
  | Progress.excellent => 4

/-- The fixed-threshold re-bucketing of an averaged progress score,
written identically in `getDogTrainingProgressRoute` and
`getTrainersRoute`: `<= 1.5 → poor`, `<= 2.5 → fair`, `<= 3.5 → good`,
else `excellent`. -/
def bucket (avgScore : ℚ) : Progress :=
  if avgScore ≤ 1.5 then Progress.poor
  else if avgScore ≤ 2.5 then Progress.fair
  else if avgScore ≤ 3.5 then Progress.good
  else Progress.excellent

/-- JS `Set.prototype.add` on a set represented in insertion order
(`Array.from` of a JS `Set` yields insertion order). -/
def addToSet {β : Type} [BEq β] (l : List β) (x : β) : List β :=
  if l.contains x then l else l ++ [x]

/-- One trainer entry of the `getTrainersRoute` response. -/
structure TrainerInfo where
  name : String
  facility : Option String
  specialties : List TrainingType
  recordCount : Nat
  averageProgress : Progress
deriving DecidableEq, Repr

/-- The per-trainer accumulator of the `trainerMap` in
`getTrainersRoute`. -/
structure TrainerAcc where
  name : String
  facility : Option String
  specialties : List TrainingType
  recordCount : Nat
  progressScores : List Nat
deriving DecidableEq, Repr

/-- One iteration of `trainingRecords.forEach` in `getTrainersRoute`:
create the entry of the trainer on first sight (capturing `facility` from
that first record), then increment its count, add the type of the record to
its specialties and push its progress score.  The JS `Map` keeps
first-insertion order, modelled as an association list extended at the
end. -/
def trainerStep (acc : List TrainerAcc) (record : TrainingRecord) : List TrainerAcc :=
  let acc := if acc.any fun t => t.name == record.trainer then acc
    else acc ++ [{ name := record.trainer, facility := record.facility,
                   specialties := [], recordCount := 0, progressScores := [] }]
  acc.map fun t =>
    if t.name == record.trainer then
      { t with recordCount := t.recordCount + 1
               specialties := addToSet t.specialties record.type
               progressScores := t.progressScores ++ [progressScore record.progress] }
    else t

/-- Average `progressScores.reduce((a, b) => a + b, 0) / progressScores.length`.
(In JS this is `NaN` for an empty list; `getTrainersRoute` only ever
averages a group holding at least one record, so the routes never
evaluate the empty case.) -/
def avgScoreOf (scores : List Nat) : ℚ :=
  (scores.sum : ℚ) / (scores.length : ℚ)

/-- The `getTrainersRoute` handler: group training records by trainer
name, then map each accumulator to its directory entry with the bucketed
average progress. -/
def getTrainers (records : List TrainingRecord) : List TrainerInfo :=
  (records.foldl trainerStep []).map fun t =>
    { name := t.name, facility := t.facility, specialties := t.specialties
      recordCount := t.recordCount
      averageProgress := bucket (avgScoreOf t.progressScores) }

/-- The `getDogTrainingProgressRoute` 200-response shape. -/
structure DogProgress where
  dogId : String
  totalTrainings : Nat
  completedTrainings : Nat
  inProgressTrainings : Nat
  overallProgress : Progress
  skills : List String
  trainingRecords : List TrainingRecord
deriving DecidableEq, Repr

/-- The 404 payload with error `NOT_FOUND` and message
`Dog with ID … not found` shared by every route that checks the Dog
collection. -/
def notFoundDog (dogId : String) : ErrorResp :=
  { error := "NOT_FOUND", message := "Dog with ID " ++ dogId ++ " not found" }

/-- The `getDogTrainingProgressRoute` handler. -/
def getDogTrainingProgress (dogs : List Dog) (trainingRecords : List TrainingRecord)
    (dogId : String) : Except ErrorResp DogProgress :=
  match findById dogs dogId with
  | Option.none => Except.error (notFoundDog dogId)
  | Option.some _ =>
    let dogTrainings := trainingRecords.filter fun record => record.dogId == dogId
    let completedTrainings := dogTrainings.filter fun record =>
      decide (record.status = TrainingStatus.completed)
    let inProgressTrainings := dogTrainings.filter fun record =>
      decide (record.status = TrainingStatus.inProgress)
    let allSkills := dogTrainings.foldl (fun s record => record.skills.foldl addToSet s) []
    let progressScores := dogTrainings.map fun record => progressScore record.progress
    let avgScore : ℚ := if 0 < progressScores.length
      then (progressScores.sum : ℚ) / (progressScores.length : ℚ)
      else 2
    Except.ok
      { dogId := dogId
        totalTrainings := dogTrainings.length
        completedTrainings := completedTrainings.length
        inProgressTrainings := inProgressTrainings.length
        overallProgress := bucket avgScore
        skills := allSkills
        trainingRecords := dogTrainings.mergeSort fun a b => decide (b.startDate ≤ a.startDate) }

/-- A concrete training record for trainer `"X"` with progress `good`. -/
def sampleTrainingGood : TrainingRecord :=
  { id := "t1", dogId := "d1", type := TrainingType.agility, trainer := "X"
    facility := Option.none, startDate := 10, endDate := Option.none
    status := TrainingStatus.completed, skills := ["sit"], progress := Progress.good
    cost := Option.none, notes := Option.none, certificates := Option.none
    createdAt := 0, updatedAt := 0 }

/-- A concrete training record for trainer `"X"` with progress
`excellent`. -/
def sampleTrainingExcellent : TrainingRecord :=
  { id := "t2", dogId := "d1", type := TrainingType.therapy, trainer := "X"
    facility := Option.none, startDate := 20, endDate := Option.none
    status := TrainingStatus.inProgress, skills := ["stay"], progress := Progress.excellent
    cost := Option.none, notes := Option.none, certificates := Option.none
    createdAt := 0, updatedAt := 0 }

/-- C5 (Progress bucketing thresholds): the re-bucketing of the averaged
score has inclusive upper thresholds — `≤ 1.5 → poor`, `≤ 2.5 → fair`,
`≤ 3.5 → good`, above `3.5 → excellent` — and a trainer with exactly two
records of progress good and excellent (scores 3 and 4, average 3.5) is
bucketed as good by the trainers directory. -/
theorem progress_bucketing :
    (∀ q : ℚ, q ≤ 1.5 → bucket q = Progress.poor)
    ∧ (∀ q : ℚ, 1.5 < q → q ≤ 2.5 → bucket q = Progress.fair)
    ∧ (∀ q : ℚ, 2.5 < q → q ≤ 3.5 → bucket q = Progress.good)
    ∧ (∀ q : ℚ, 3.5 < q → bucket q = Progress.excellent)
    ∧ (∀ r1 r2 : TrainingRecord, r1.trainer = "X" → r2.trainer = "X" →
        r1.progress = Progress.good → r2.progress = Progress.excellent →
        (getTrainers [r1, r2]).map TrainerInfo.averageProgress = [Progress.good]) := by
  refine ⟨?_, ?_, ?_, ?_, ?_⟩
  · intro q h
    simp [bucket, h]
  · intro q h1 h2
    rw [bucket, if_neg (by linarith), if_pos h2]
  · intro q h1 h2
    rw [bucket, if_neg (by linarith), if_neg (by linarith), if_pos h2]
  · intro q h
    rw [bucket, if_neg (by linarith), if_neg (by linarith), if_neg (by linarith)]
  · intro r1 r2 ht1 ht2 hp1 hp2
    simp [getTrainers, trainerStep, ht1, ht2, hp1, hp2, addToSet, avgScoreOf,
      progressScore, bucket]
    norm_num

/-- Concrete instances of C5: one representative per bucket and the
two-record trainer scenario. -/
theorem progress_bucketing_witness :
    bucket 1 = Progress.poor ∧ bucket 2 = Progress.fair ∧ bucket (7 / 2) = Progress.good
    ∧ bucket 4 = Progress.excellent
    ∧ (getTrainers [sampleTrainingGood, sampleTrainingExcellent]).map
        TrainerInfo.averageProgress = [Progress.good] := by
  refine ⟨progress_bucketing.1 1 (by norm_num),
    progress_bucketing.2.1 2 (by norm_num) (by norm_num),
    progress_bucketing.2.2.1 (7 / 2) (by norm_num) (by norm_num),
    progress_bucketing.2.2.2.1 4 (by norm_num),
    progress_bucketing.2.2.2.2 sampleTrainingGood sampleTrainingExcellent rfl rfl rfl rfl⟩

/-- C6 (Empty-input default for training progress): a dog present in the
Dog collection with zero training records gets the summary
`totalTrainings = 0`, `completedTrainings = 0`, `inProgressTrainings = 0`,
`overallProgress = fair` (the empty average defaults to the neutral
midpoint 2), `skills = []` and an empty sorted record list — an `ok`
response, never an error. -/
theorem empty_training_progress (dogs : List Dog) (trs : List TrainingRecord)
    (dogId : String) (d : Dog) (hfind : findById dogs dogId = Option.some d)
    (hnone : ∀ r ∈ trs, r.dogId ≠ dogId) :
    getDogTrainingProgress dogs trs dogId =
      Except.ok
        { dogId := dogId, totalTrainings := 0, completedTrainings := 0
          inProgressTrainings := 0, overallProgress := Progress.fair
          skills := [], trainingRecords := [] } := by
  have hfilter : trs.filter (fun record => record.dogId == dogId) = [] := by
    rw [List.filter_eq_nil_iff]
    intro r hr
    simpa using hnone r hr
  simp only [getDogTrainingProgress, hfind, hfilter]
  norm_num [bucket]

/-- A concrete dog present in the store. -/
def sampleDog : Dog :=
  { id := "d1", name := "Buddy", breed := "Golden Retriever", age := 3, weight := 65
    gender := Gender.male, color := "Golden", size := DogSize.large
    temperament := ["friendly"], isNeutered := true, microchipId := Option.none
    photos := [], description := "", createdAt := 0, updatedAt := 0 }

/-- Concrete instance of C6: `sampleDog` with no training records. -/
theorem empty_training_progress_witness :
    getDogTrainingProgress [sampleDog] [] "d1" =
      Except.ok
        { dogId := "d1", totalTrainings := 0, completedTrainings := 0
          inProgressTrainings := 0, overallProgress := Progress.fair
          skills := [], trainingRecords := [] } :=
  empty_training_progress [sampleDog] [] "d1" sampleDog (by rfl) (by simp)

/-! ## Vaccination history (`health.ts`) -/

/-- The `getDogVaccinationHistoryRoute` 200-response shape.  The declared
schema of the route says `upToDate: z.boolean()` (required) and `nextDue`
optional, but the handler computes
`upToDate = lastVaccination && new Date(lastVaccination.date) > oneYearAgo`,
which is `undefined` — here `Option.none` — when the dog has no
vaccination records; hence `Option Bool`. -/
structure VaccinationHistory where
  dogId : String
  vaccinations : List HealthRecord
  upToDate : Option Bool
  nextDue : Option Nat
deriving DecidableEq, Repr

/-- The `getDogVaccinationHistoryRoute` handler.  The evaluation instant
enters only through `oneYearAgo`, the timestamp produced by
`const oneYearAgo = new Date(); oneYearAgo.setFullYear(oneYearAgo.getFullYear() - 1)`
— one *calendar year* before the evaluation instant (so leap years shift
the window; it is not a 365-day count) — which we take as a parameter.
`nextDue = lastVaccination?.followUpDate || undefined`. -/
def getDogVaccinationHistory (dogs : List Dog) (healthRecords : List HealthRecord)
    (dogId : String) (oneYearAgo : Nat) : Except ErrorResp VaccinationHistory :=
  match findById dogs dogId with
  | Option.none => Except.error (notFoundDog dogId)
  | Option.some _ =>
    let vaccinations :=
      (healthRecords.filter fun record =>
        record.dogId == dogId && decide (record.type = HealthRecordType.vaccination)).mergeSort
        fun a b => decide (b.date ≤ a.date)
    let lastVaccination := vaccinations.head?
    let upToDate := lastVaccination.map fun lv => decide (oneYearAgo < lv.date)
    let nextDue := lastVaccination.bind fun lv => lv.followUpDate
    Except.ok
      { dogId := dogId, vaccinations := vaccinations
        upToDate := upToDate, nextDue := nextDue }

/-- The declared 200-response schema of the vaccination-history route
requires `upToDate` to be an actual boolean (`z.boolean()`, not
optional); a payload whose `upToDate` is `undefined` is omitted by JSON
serialization and does not conform. -/
def vaccinationResponseConforms (resp : VaccinationHistory) : Bool :=
  resp.upToDate.isSome

/-- C7 (Vaccination status): for a dog present in the Dog collection the
endpoint succeeds with exactly the vaccination-type health records of the dog
sorted descending by date; `upToDate` is `true` exactly when the most
recent vaccination date is strictly after the evaluation instant minus
one calendar year (`oneYearAgo`); and `nextDue` is the most recent
`followUpDate` of that record when such a record exists. -/
theorem vaccination_status (dogs : List Dog) (hrs : List HealthRecord)
    (dogId : String) (oneYearAgo : Nat) (d : Dog)
    (hfind : findById dogs dogId = Option.some d) :
    ∃ resp, getDogVaccinationHistory dogs hrs dogId oneYearAgo = Except.ok resp
      ∧ resp.vaccinations.Perm
          (hrs.filter fun r =>
            r.dogId == dogId && decide (r.type = HealthRecordType.vaccination))
      ∧ resp.vaccinations.Pairwise (fun a b => b.date ≤ a.date)
      ∧ (resp.upToDate = Option.some true
          ↔ ∃ lv, resp.vaccinations.head? = Option.some lv ∧ oneYearAgo < lv.date)
      ∧ (∀ lv, resp.vaccinations.head? = Option.some lv →
          resp.nextDue = lv.followUpDate) := by
  simp only [getDogVaccinationHistory, hfind]
  refine ⟨_, rfl, List.mergeSort_perm _ _, ?_, ?_, ?_⟩
  · have h := @List.sorted_mergeSort HealthRecord
      (fun a b => decide (b.date ≤ a.date))
      (by intro a b c hab hbc; simp only [decide_eq_true_eq] at *; omega)
      (by intro a b; simp only [Bool.or_eq_true, decide_eq_true_eq]; omega)
      (hrs.filter fun r =>
        r.dogId == dogId && decide (r.type = HealthRecordType.vaccination))
    exact h.imp fun hab => by simpa using hab
  · cases hhd : (((hrs.filter fun r =>
        r.dogId == dogId && decide (r.type = HealthRecordType.vaccination)).mergeSort
        fun a b => decide (b.date ≤ a.date)).head?) with
    | none => simp [hhd]
    | some lv =>
      simp only [hhd, Option.map_some]
      constructor
      · intro h
        exact ⟨lv, rfl, by simpa using h⟩
      · rintro ⟨lv', hlv', hdate⟩
        obtain rfl : lv = lv' := by simpa using hlv'
        simp [hdate]
  · intro lv hlv
    simp [hlv]

/-- A vaccination record for `sampleDog` dated 100 with a follow-up due
at 400. -/
def sampleVaccination : HealthRecord :=
  { id := "h1", dogId := "d1", type := HealthRecordType.vaccination, date := 100
    veterinarian := "Dr. Vet", clinic := "Clinic", description := "rabies"
    medications := Option.none, cost := Option.none, followUpDate := Option.some 400
    notes := Option.none, attachments := Option.none, createdAt := 0, updatedAt := 0 }

/-- Concrete instance of C7: `sampleDog` with one vaccination record
dated strictly after the cutoff 40 is up to date and its follow-up date
is surfaced as `nextDue`. -/
theorem vaccination_status_witness :
    ∃ resp, getDogVaccinationHistory [sampleDog] [sampleVaccination] "d1" 40
        = Except.ok resp
      ∧ resp.upToDate = Option.some true
      ∧ resp.nextDue = Option.some 400 := by
  obtain ⟨resp, hok, _, _, hiff, hnext⟩ :=
    vaccination_status [sampleDog] [sampleVaccination] "d1" 40 sampleDog (by rfl)
  have hcomp : getDogVaccinationHistory [sampleDog] [sampleVaccination] "d1" 40
      = Except.ok
        { dogId := "d1", vaccinations := [sampleVaccination]
          upToDate := Option.some true, nextDue := Option.some 400 } := by
    simp [getDogVaccinationHistory, findById, sampleVaccination, sampleDog]
  rw [hcomp] at hok
  injection hok with hresp
  subst hresp
  exact ⟨_, hcomp, rfl, rfl⟩

/-- C10 (implicit): for a dog present in the Dog collection with zero
vaccination-type health records, the computed `upToDate` is the absent
value (`undefined`), not the boolean `false`, so the serialized response
omits the field and violates the declared `z.boolean()` schema of the route;
`nextDue` is likewise absent. -/
theorem vaccination_upToDate_missing (dogs : List Dog) (hrs : List HealthRecord)
    (dogId : String) (oneYearAgo : Nat) (d : Dog)
    (hfind : findById dogs dogId = Option.some d)
    (hnovacc : ∀ r ∈ hrs, ¬(r.dogId = dogId ∧ r.type = HealthRecordType.vaccination)) :
    ∃ resp, getDogVaccinationHistory dogs hrs dogId oneYearAgo = Except.ok resp
      ∧ resp.upToDate = Option.none
      ∧ resp.upToDate ≠ Option.some false
      ∧ resp.nextDue = Option.none
      ∧ vaccinationResponseConforms resp = false := by
  have hfilter : (hrs.filter fun r =>
      r.dogId == dogId && decide (r.type = HealthRecordType.vaccination)) = [] := by
    rw [List.filter_eq_nil_iff]
    intro r hr
    have := hnovacc r hr
    simp only [Bool.and_eq_true, beq_iff_eq, decide_eq_true_eq]
    tauto
  simp only [getDogVaccinationHistory, hfind, hfilter]
  exact ⟨_, rfl, by simp [vaccinationResponseConforms]⟩

/-- Concrete instance of C10: `sampleDog` with an empty health-record
store gets a response with no `upToDate` boolean. -/
theorem vaccination_upToDate_missing_witness :
    ∃ resp, getDogVaccinationHistory [sampleDog] [] "d1" 40 = Except.ok resp
      ∧ resp.upToDate = Option.none
      ∧ vaccinationResponseConforms resp = false := by
  obtain ⟨resp, hok, hnone, _, _, hconf⟩ :=
    vaccination_upToDate_missing [sampleDog] [] "d1" 40 sampleDog (by rfl) (by simp)
  exact ⟨resp, hok, hnone, hconf⟩

/-! ## Adoption routes (`adoption.ts`) -/

/-- The `getAdoptionStatsRoute` 200-response shape.
`availableForAdoption = mockDogs.length - approvedCount` is a plain JS
subtraction, so it is an integer that can go negative. -/
structure AdoptionStats where
  totalDogs : Nat
  availableForAdoption : Int
  totalApplications : Nat
  pendingApplications : Nat
  approvedApplications : Nat
  rejectedApplications : Nat
  adoptionRate : ℚ
deriving DecidableEq, Repr

/-- Rounding `Math.round(x * 100) / 100` — JS `Math.round` is `⌊x + 1/2⌋`. -/
def round2 (x : ℚ) : ℚ :=
  ((⌊x * 100 + 1 / 2⌋ : ℤ) : ℚ) / 100

/-- The `getAdoptionStatsRoute` handler. -/
def getAdoptionStats (dogs : List Dog) (apps : List AdoptionApplication) :
    AdoptionStats :=
  let approvedCount :=
    (apps.filter fun app => decide (app.status = AppStatus.approved)).length
  let pendingCount :=
    (apps.filter fun app => decide (app.status = AppStatus.pending)).length
  let rejectedCount :=
    (apps.filter fun app => decide (app.status = AppStatus.rejected)).length
  let adoptionRate : ℚ := if 0 < dogs.length
    then ((approvedCount : ℚ) / (dogs.length : ℚ)) * 100
    else 0
  { totalDogs := dogs.length
    availableForAdoption := (dogs.length : Int) - (approvedCount : Int)
    totalApplications := apps.length
    pendingApplications := pendingCount
    approvedApplications := approvedCount
    rejectedApplications := rejectedCount
    adoptionRate := round2 adoptionRate }

/-- The query schema of `getAvailableDogsRoute`: `goodWithKids` is
declared but the handler never reads it. -/
structure AvailableDogsQuery where
  breed : Option String
  size : Option DogSize
  age_max : Option Nat
  goodWithKids : Option Bool
deriving DecidableEq, Repr

/-- The `getAvailableDogsRoute` handler: exclude dogs having an approved
application, then apply the `breed`, `size` and `age_max` filters. -/
def getAvailableDogs (dogs : List Dog) (apps : List AdoptionApplication)
    (q : AvailableDogsQuery) : List Dog :=
  let approvedDogIds :=
    (apps.filter fun app => decide (app.status = AppStatus.approved)).map
      fun app => app.dogId
  let availableDogs := dogs.filter fun dog => !(approvedDogIds.contains dog.id)
  let availableDogs := optFilter availableDogs q.breed fun b dog => includesCI dog.breed b
  let availableDogs := optFilter availableDogs q.size fun s dog => decide (dog.size = s)
  let availableDogs := optFilter availableDogs q.age_max fun m dog => decide (dog.age ≤ m)
  availableDogs

/-- A concrete approved application for `sampleDog`. -/
def sampleApprovedApp (id : String) : AdoptionApplication :=
  { id := id, dogId := "d1", applicantName := "A", applicantEmail := "a@example.com"
    applicantPhone := "5551234567"
    address := { street := "1 Main St", city := "Town", state := "ST", zipCode := "12345" }
    housingType := HousingType.house, hasYard := true, hasOtherPets := false
    otherPetsDetails := Option.none, experience := ExperienceLevel.some
    workSchedule := "9-5", reason := "loves dogs", status := AppStatus.approved
    notes := Option.none, createdAt := 0, updatedAt := 0 }

/-- C8 (Adoption statistics): the per-status counts are the numbers of
applications with each status, `totalDogs` and `totalApplications` are
the collection sizes, `adoptionRate` is `approved / totalDogs × 100`
rounded to two decimals (`0` when there are no dogs), and — since the
approved count is not capped by the dog count — the rate can exceed 100,
as it does with one dog and two approved applications. -/
theorem adoption_stats (dogs : List Dog) (apps : List AdoptionApplication) :
    ((getAdoptionStats dogs apps).pendingApplications
        = (apps.filter fun a => decide (a.status = AppStatus.pending)).length)
    ∧ ((getAdoptionStats dogs apps).approvedApplications
        = (apps.filter fun a => decide (a.status = AppStatus.approved)).length)
    ∧ ((getAdoptionStats dogs apps).rejectedApplications
        = (apps.filter fun a => decide (a.status = AppStatus.rejected)).length)
    ∧ (getAdoptionStats dogs apps).totalDogs = dogs.length
    ∧ (getAdoptionStats dogs apps).totalApplications = apps.length
    ∧ (dogs.length = 0 → (getAdoptionStats dogs apps).adoptionRate = 0)
    ∧ (0 < dogs.length → (getAdoptionStats dogs apps).adoptionRate
        = round2 ((((apps.filter fun a =>
            decide (a.status = AppStatus.approved)).length : ℚ) / (dogs.length : ℚ)) * 100))
    ∧ 100 < (getAdoptionStats [sampleDog]
        [sampleApprovedApp "a1", sampleApprovedApp "a2"]).adoptionRate := by
  refine ⟨rfl, rfl, rfl, rfl, rfl, ?_, ?_, ?_⟩
  · intro h
    simp [getAdoptionStats, h, round2]
    norm_num
  · intro h
    simp [getAdoptionStats, h]
  · norm_num [getAdoptionStats, sampleApprovedApp, sampleDog, round2]

/-- Concrete instance of C8: with no dogs the rate is 0; with one dog
and two approved applications it is 200. -/
theorem adoption_stats_witness :
    (getAdoptionStats [] [sampleApprovedApp "a1"]).adoptionRate = 0
    ∧ (getAdoptionStats [sampleDog]
        [sampleApprovedApp "a1", sampleApprovedApp "a2"]).adoptionRate = 200 := by
  constructor
  · exact (adoption_stats [] [sampleApprovedApp "a1"]).2.2.2.2.2.1 rfl
  · have h := (adoption_stats [sampleDog]
      [sampleApprovedApp "a1", sampleApprovedApp "a2"]).2.2.2.2.2.2.1 (by norm_num)
    rw [h]
    norm_num [sampleApprovedApp, round2]

/-- C9 (implicit): the `/adoption/available` response is independent of
the `goodWithKids` query parameter — two queries that agree on `breed`,
`size` and `age_max` (and may differ arbitrarily in `goodWithKids`)
produce identical dog lists, because the handler applies only those
three filters. -/
theorem available_dogs_ignore_goodWithKids (dogs : List Dog)
    (apps : List AdoptionApplication) (q1 q2 : AvailableDogsQuery)
    (hb : q1.breed = q2.breed) (hs : q1.size = q2.size)
    (ha : q1.age_max = q2.age_max) :
    getAvailableDogs dogs apps q1 = getAvailableDogs dogs apps q2 := by
  simp only [getAvailableDogs, hb, hs, ha]

/-- Concrete instance of C9: supplying `goodWithKids := true` versus
omitting it leaves the available-dogs list unchanged. -/
theorem available_dogs_ignore_goodWithKids_witness :
    getAvailableDogs [sampleDog] []
        { breed := Option.none, size := Option.none, age_max := Option.some 10
          goodWithKids := Option.some true }
      = getAvailableDogs [sampleDog] []
        { breed := Option.none, size := Option.none, age_max := Option.some 10
          goodWithKids := Option.none } :=
  available_dogs_ignore_goodWithKids [sampleDog] [] _ _ rfl rfl rfl

/-! ## Creation routes with the dogId foreign-key guard -/

/-- Body type of `CreateHealthRecordSchema` (`HealthRecordSchema` without `id`,
`createdAt`, `updatedAt`). -/
structure CreateHealthRecordData where
  dogId : String
  type : HealthRecordType
  date : Nat
  veterinarian : String
  clinic : String
  description : String
  medications : Option (List Medication)
  cost : Option ℚ
  followUpDate : Option Nat
  notes : Option String
  attachments : Option (List String)
deriving DecidableEq, Repr

/-- Body type of `CreateTrainingRecordSchema`. -/
structure CreateTrainingRecordData where
  dogId : String
  type : TrainingType
  trainer : String
  facility : Option String
  startDate : Nat
  endDate : Option Nat
  status : TrainingStatus
  skills : List String
  progress : Progress
  cost : Option ℚ
  notes : Option String
  certificates : Option (List String)
deriving DecidableEq, Repr

/-- Body type of `CreateAdoptionApplicationSchema` (`AdoptionApplicationSchema`
without `id`, `status`, `notes`, `createdAt`, `updatedAt`). -/
structure CreateAdoptionApplicationData where
  dogId : String
  applicantName : String
  applicantEmail : String
  applicantPhone : String
  address : Address
  housingType : HousingType
  hasYard : Bool
  hasOtherPets : Bool
  otherPetsDetails : Option String
  experience : ExperienceLevel
  workSchedule : String
  reason : String
deriving DecidableEq, Repr

/-- The `createHealthRecordRoute` handler: 404 (and no mutation) when
`recordData.dogId` is not in the Dog collection, otherwise append
`{ id: generateId(), ...recordData, ...generateTimestamps() }`.  The
generated id and the shared `createdAt = updatedAt = now` timestamp are
parameters; the result pairs the response with the (possibly updated)
health-record store. -/
def createHealthRecord (dogs : List Dog) (healthRecords : List HealthRecord)
    (recordData : CreateHealthRecordData) (newId : String) (now : Nat) :
    Except ErrorResp HealthRecord × List HealthRecord :=
  match findById dogs recordData.dogId with
  | Option.none => (Except.error (notFoundDog recordData.dogId), healthRecords)
  | Option.some _ =>
    let newRecord : HealthRecord :=
      { id := newId, dogId := recordData.dogId, type := recordData.type
        date := recordData.date, veterinarian := recordData.veterinarian
        clinic := recordData.clinic, description := recordData.description
        medications := recordData.medications, cost := recordData.cost
        followUpDate := recordData.followUpDate, notes := recordData.notes
        attachments := recordData.attachments, createdAt := now, updatedAt := now }
    (Except.ok newRecord, healthRecords ++ [newRecord])

/-- The `createTrainingRecordRoute` handler. -/
def createTrainingRecord (dogs : List Dog) (trainingRecords : List TrainingRecord)
    (recordData : CreateTrainingRecordData) (newId : String) (now : Nat) :
    Except ErrorResp TrainingRecord × List TrainingRecord :=
  match findById dogs recordData.dogId with
  | Option.none => (Except.error (notFoundDog recordData.dogId), trainingRecords)
  | Option.some _ =>
    let newRecord : TrainingRecord :=
      { id := newId, dogId := recordData.dogId, type := recordData.type
        trainer := recordData.trainer, facility := recordData.facility
        startDate := recordData.startDate, endDate := recordData.endDate
        status := recordData.status, skills := recordData.skills
        progress := recordData.progress, cost := recordData.cost
        notes := recordData.notes, certificates := recordData.certificates
        createdAt := now, updatedAt := now }
    (Except.ok newRecord, trainingRecords ++ [newRecord])

/-- The `createAdoptionApplicationRoute` handler; the new application
gets status `pending` and no notes. -/
def createAdoptionApplication (dogs : List Dog)
    (adoptionApplications : List AdoptionApplication)
    (applicationData : CreateAdoptionApplicationData) (newId : String) (now : Nat) :
    Except ErrorResp AdoptionApplication × List AdoptionApplication :=
  match findById dogs applicationData.dogId with
  | Option.none => (Except.error (notFoundDog applicationData.dogId), adoptionApplications)
  | Option.some _ =>
    let newApplication : AdoptionApplication :=
      { id := newId, dogId := applicationData.dogId
        applicantName := applicationData.applicantName
        applicantEmail := applicationData.applicantEmail
        applicantPhone := applicationData.applicantPhone
        address := applicationData.address, housingType := applicationData.housingType
        hasYard := applicationData.hasYard, hasOtherPets := applicationData.hasOtherPets
        otherPetsDetails := applicationData.otherPetsDetails
        experience := applicationData.experience
        workSchedule := applicationData.workSchedule, reason := applicationData.reason
        status := AppStatus.pending, notes := Option.none
        createdAt := now, updatedAt := now }
    (Except.ok newApplication, adoptionApplications ++ [newApplication])

/-- Lookup `findById` finds nothing exactly when no element carries the id. -/
theorem findById_eq_none {α : Type} [HasId α] (data : List α) (id : String)
    (h : ∀ x ∈ data, HasId.idOf x ≠ id) : findById data id = Option.none := by
  rw [findById, List.find?_eq_none]
  intro x hx
  simpa using h x hx

/-- Lookup `findById` finds something when some element carries the id. -/
theorem findById_isSome {α : Type} [HasId α] (data : List α) (id : String)
    (h : ∃ x ∈ data, HasId.idOf x = id) : ∃ y, findById data id = Option.some y := by
  rw [findById]
  obtain ⟨x, hx, hid⟩ := h
  have : (data.find? fun item => HasId.idOf item == id).isSome := by
    rw [List.find?_isSome]
    exact ⟨x, hx, by simpa using hid⟩
  exact Option.isSome_iff_exists.mp this

/-- C2 (Foreign-key guard): creating a HealthRecord, TrainingRecord or
AdoptionApplication whose `dogId` is absent from the Dog collection
returns `NOT_FOUND` and leaves the target collection unchanged; when the
`dogId` is present, the new record is appended to the target
collection. -/
theorem foreign_key_guard (dogs : List Dog) (hrs : List HealthRecord)
    (trs : List TrainingRecord) (apps : List AdoptionApplication)
    (hdata : CreateHealthRecordData) (tdata : CreateTrainingRecordData)
    (adata : CreateAdoptionApplicationData) (newId : String) (now : Nat) :
    ((∀ d ∈ dogs, d.id ≠ hdata.dogId) →
        (createHealthRecord dogs hrs hdata newId now).2 = hrs
      ∧ ∃ e, (createHealthRecord dogs hrs hdata newId now).1 = Except.error e
          ∧ e.error = "NOT_FOUND")
    ∧ ((∃ d ∈ dogs, d.id = hdata.dogId) →
        ∃ r, (createHealthRecord dogs hrs hdata newId now).1 = Except.ok r
          ∧ (createHealthRecord dogs hrs hdata newId now).2 = hrs ++ [r]
          ∧ r.dogId = hdata.dogId)
    ∧ ((∀ d ∈ dogs, d.id ≠ tdata.dogId) →
        (createTrainingRecord dogs trs tdata newId now).2 = trs
      ∧ ∃ e, (createTrainingRecord dogs trs tdata newId now).1 = Except.error e
          ∧ e.error = "NOT_FOUND")
    ∧ ((∃ d ∈ dogs, d.id = tdata.dogId) →
        ∃ r, (createTrainingRecord dogs trs tdata newId now).1 = Except.ok r
          ∧ (createTrainingRecord dogs trs tdata newId now).2 = trs ++ [r]
          ∧ r.dogId = tdata.dogId)
    ∧ ((∀ d ∈ dogs, d.id ≠ adata.dogId) →
        (createAdoptionApplication dogs apps adata newId now).2 = apps
      ∧ ∃ e, (createAdoptionApplication dogs apps adata newId now).1 = Except.error e
          ∧ e.error = "NOT_FOUND")
    ∧ ((∃ d ∈ dogs, d.id = adata.dogId) →
        ∃ a, (createAdoptionApplication dogs apps adata newId now).1 = Except.ok a
          ∧ (createAdoptionApplication dogs apps adata newId now).2 = apps ++ [a]
          ∧ a.dogId = adata.dogId ∧ a.status = AppStatus.pending) := by
  refine ⟨?_, ?_, ?_, ?_, ?_, ?_⟩
  · intro h
    have hf := findById_eq_none dogs hdata.dogId (by simpa using h)
    rw [createHealthRecord, hf]
    exact ⟨rfl, _, rfl, rfl⟩
  · intro h
    obtain ⟨y, hy⟩ := findById_isSome dogs hdata.dogId (by simpa using h)
    rw [createHealthRecord, hy]
    exact ⟨_, rfl, rfl, rfl⟩
  · intro h
    have hf := findById_eq_none dogs tdata.dogId (by simpa using h)
    rw [createTrainingRecord, hf]
    exact ⟨rfl, _, rfl, rfl⟩
  · intro h
    obtain ⟨y, hy⟩ := findById_isSome dogs tdata.dogId (by simpa using h)
    rw [createTrainingRecord, hy]
    exact ⟨_, rfl, rfl, rfl⟩
  · intro h
    have hf := findById_eq_none dogs adata.dogId (by simpa using h)
    rw [createAdoptionApplication, hf]
    exact ⟨rfl, _, rfl, rfl⟩
  · intro h
    obtain ⟨y, hy⟩ := findById_isSome dogs adata.dogId (by simpa using h)
    rw [createAdoptionApplication, hy]
    exact ⟨_, rfl, rfl, rfl, rfl⟩

/-- Creation data pointing at the stored dog `"d1"`. -/
def goodHealthData : CreateHealthRecordData :=
  { dogId := "d1", type := HealthRecordType.checkup, date := 50
    veterinarian := "Dr. Vet", clinic := "Clinic", description := "annual"
    medications := Option.none, cost := Option.none, followUpDate := Option.none
    notes := Option.none, attachments := Option.none }

/-- Creation data pointing at an id `"ghost"` not in the store. -/
def badHealthData : CreateHealthRecordData :=
  { goodHealthData with dogId := "ghost" }

/-- Training creation data pointing at `"d1"`. -/
def goodTrainingData : CreateTrainingRecordData :=
  { dogId := "d1", type := TrainingType.agility, trainer := "X"
    facility := Option.none, startDate := 10, endDate := Option.none
    status := TrainingStatus.inProgress, skills := [], progress := Progress.fair
    cost := Option.none, notes := Option.none, certificates := Option.none }

/-- Training creation data pointing at `"ghost"`. -/
def badTrainingData : CreateTrainingRecordData :=
  { goodTrainingData with dogId := "ghost" }

/-- Adoption creation data pointing at `"d1"`. -/
def goodAdoptionData : CreateAdoptionApplicationData :=
  { dogId := "d1", applicantName := "A", applicantEmail := "a@example.com"
    applicantPhone := "5551234567"
    address := { street := "1 Main St", city := "Town", state := "ST", zipCode := "12345" }
    housingType := HousingType.house, hasYard := true, hasOtherPets := false
    otherPetsDetails := Option.none, experience := ExperienceLevel.some
    workSchedule := "9-5", reason := "loves dogs" }

/-- Adoption creation data pointing at `"ghost"`. -/
def badAdoptionData : CreateAdoptionApplicationData :=
  { goodAdoptionData with dogId := "ghost" }

/-- Concrete instance of C2: against the store `[sampleDog]`, creation
with dogId `"ghost"` leaves each collection unchanged, creation with
dogId `"d1"` appends. -/
theorem foreign_key_guard_witness :
    (createHealthRecord [sampleDog] [] badHealthData "h9" 7).2 = []
    ∧ (∃ r, (createHealthRecord [sampleDog] [] goodHealthData "h9" 7).2 = [] ++ [r])
    ∧ (createTrainingRecord [sampleDog] [] badTrainingData "t9" 7).2 = []
    ∧ (∃ r, (createTrainingRecord [sampleDog] [] goodTrainingData "t9" 7).2 = [] ++ [r])
    ∧ (createAdoptionApplication [sampleDog] [] badAdoptionData "a9" 7).2 = []
    ∧ (∃ a, (createAdoptionApplication [sampleDog] [] goodAdoptionData "a9" 7).2
        = [] ++ [a]) := by
  have hbad := foreign_key_guard [sampleDog] [] [] [] badHealthData badTrainingData
    badAdoptionData "h9" 7
  have hgoodH := (foreign_key_guard [sampleDog] [] [] [] goodHealthData badTrainingData
    badAdoptionData "h9" 7).2.1 ⟨sampleDog, by simp, rfl⟩
  have hgoodT := (foreign_key_guard [sampleDog] [] [] [] badHealthData goodTrainingData
    badAdoptionData "t9" 7).2.2.2.1 ⟨sampleDog, by simp, rfl⟩
  have hgoodA := (foreign_key_guard [sampleDog] [] [] [] badHealthData badTrainingData
    goodAdoptionData "a9" 7).2.2.2.2.2 ⟨sampleDog, by simp, rfl⟩
  have hne : ∀ d ∈ [sampleDog], d.id ≠ "ghost" := by
    intro d hd
    simp only [List.mem_singleton] at hd
    subst hd
    decide
  refine ⟨(hbad.1 hne).1, ?_, (hbad.2.2.1 hne).1, ?_, (hbad.2.2.2.2.1 hne).1, ?_⟩
  · obtain ⟨r, _, happ, _⟩ := hgoodH
    exact ⟨r, happ⟩
  · obtain ⟨r, _, happ, _⟩ := hgoodT
    exact ⟨r, happ⟩
  · obtain ⟨a, _, happ, _⟩ := hgoodA
    exact ⟨a, happ⟩

end DogApi
